import Mathlib

/-!
Shallow embedding of the PDF_Merger repository (src/merge_pdfs.py and
src/main.py) and proofs about its file-selection, ordering, merging and
compression pipeline.

File contents (sizes, readability, page lists) and directory listings are
modelled explicitly; the PyPDF2 library calls are modelled by their observable
effect on that state: appending a file contributes its page sequence, a file
the library cannot open raises an exception, and writing produces a file whose
size is given by an oracle function of the written content.
-/

namespace PDFMerger

/-! ## String and path helpers (Python semantics) -/

/-- `os.path.isabs` on POSIX: the path begins with a slash. -/
def isAbs (s : String) : Bool :=
  match s.data with
  | [] => false
  | c :: _ => c == '/'

/-- `pathlib`'s `/` operator on string paths: an absolute right operand
replaces the left operand entirely. -/
def pathJoin (a b : String) : String :=
  if isAbs b then b else a ++ "/" ++ b

/-- `l` ends with `suf` (exact character comparison). -/
def listEndsWith (l suf : List Char) : Bool :=
  l.drop (l.length - suf.length) == suf

/-- Python `str.endswith` (case-sensitive, exact codepoints). -/
def pyEndsWith (s suf : String) : Bool :=
  listEndsWith s.data suf.data

/-- Python `str.lower`, restricted to ASCII letters (which covers the file
names and the `.pdf`/`.PDF` suffixes this development reasons about). -/
def pyLower (s : String) : String :=
  ⟨s.data.map Char.toLower⟩

/-- Index of the last occurrence of `c` in the list, if any. -/
def lastIdxOf (c : Char) : List Char → Option Nat
  | [] => none
  | x :: xs =>
    match lastIdxOf c xs with
    | some i => some (i + 1)
    | none => if x == c then some 0 else none

/-- `pathlib.PurePath.stem` of a bare file name: the name without its last
suffix, where a suffix requires a dot at a position `0 < i < len - 1`. -/
def pyStem (name : String) : String :=
  match lastIdxOf '.' name.data with
  | some i => if 0 < i ∧ i + 1 < name.data.length then ⟨name.data.take i⟩ else name
  | none => name

/-- `pathlib.PurePath.parent` of a path string (simplified to the text before
the last slash; `.` when there is no slash). -/
def parentDir (p : String) : String :=
  match lastIdxOf '/' p.data with
  | some 0 => "/"
  | some i => ⟨p.data.take i⟩
  | none => "."

/-- The final path component (text after the last slash). -/
def baseName (p : String) : String :=
  match lastIdxOf '/' p.data with
  | some i => ⟨p.data.drop (i + 1)⟩
  | none => p

/-- Where the operating system actually creates a file opened at path `p`
when the process working directory is `cwd`. -/
def osResolve (cwd p : String) : String :=
  if isAbs p then p else pathJoin cwd p

/-! ## Codepoint-lexicographic order on strings (Python `list.sort` on `str`) -/

/-- Lexicographic `≤` on character lists by unicode codepoint, the order
Python uses to compare strings. -/
def charListLe : List Char → List Char → Bool
  | [], _ => true
  | _ :: _, [] => false
  | a :: as, b :: bs =>
    if a.toNat < b.toNat then true
    else if b.toNat < a.toNat then false
    else charListLe as bs

/-- Python `str` comparison: codepoint-lexicographic. -/
def strLe (a b : String) : Bool :=
  charListLe a.data b.data

theorem charListLe_total (a b : List Char) :
    charListLe a b = true ∨ charListLe b a = true := by
  induction a generalizing b with
  | nil => left; rfl
  | cons x xs ih =>
    cases b with
    | nil => right; rfl
    | cons y ys =>
      rcases Nat.lt_trichotomy x.toNat y.toNat with h | h | h
      · left
        simp only [charListLe, if_pos h]
      · have h1 : ¬ x.toNat < y.toNat := by omega
        have h2 : ¬ y.toNat < x.toNat := by omega
        rcases ih ys with hr | hr
        · left
          simp only [charListLe, if_neg h1, if_neg h2]
          exact hr
        · right
          simp only [charListLe, if_neg h1, if_neg h2]
          exact hr
      · right
        simp only [charListLe, if_pos h]

theorem charListLe_trans (a b c : List Char)
    (hab : charListLe a b = true) (hbc : charListLe b c = true) :
    charListLe a c = true := by
  induction a generalizing b c with
  | nil => rfl
  | cons x xs ih =>
    cases b with
    | nil => simp [charListLe] at hab
    | cons y ys =>
      cases c with
      | nil => simp [charListLe] at hbc
      | cons z zs =>
        rcases Nat.lt_trichotomy x.toNat y.toNat with hxy | hxy | hxy
        · rcases Nat.lt_trichotomy y.toNat z.toNat with hyz | hyz | hyz
          · have : x.toNat < z.toNat := by omega
            simp only [charListLe, if_pos this]
          · have : x.toNat < z.toNat := by omega
            simp only [charListLe, if_pos this]
          · exfalso
            have h1 : ¬ y.toNat < z.toNat := by omega
            simp only [charListLe, if_neg h1, if_pos hyz] at hbc
            exact Bool.false_ne_true hbc
        · rcases Nat.lt_trichotomy y.toNat z.toNat with hyz | hyz | hyz
          · have : x.toNat < z.toNat := by omega
            simp only [charListLe, if_pos this]
          · have h1 : ¬ x.toNat < z.toNat := by omega
            have h2 : ¬ z.toNat < x.toNat := by omega
            have h3 : ¬ x.toNat < y.toNat := by omega
            have h4 : ¬ y.toNat < x.toNat := by omega
            have h5 : ¬ y.toNat < z.toNat := by omega
            have h6 : ¬ z.toNat < y.toNat := by omega
            simp only [charListLe, if_neg h1, if_neg h2]
            simp only [charListLe, if_neg h3, if_neg h4] at hab
            simp only [charListLe, if_neg h5, if_neg h6] at hbc
            exact ih ys zs hab hbc
          · exfalso
            have h1 : ¬ y.toNat < z.toNat := by omega
            simp only [charListLe, if_neg h1, if_pos hyz] at hbc
            exact Bool.false_ne_true hbc
        · exfalso
          have h1 : ¬ x.toNat < y.toNat := by omega
          simp only [charListLe, if_neg h1, if_pos hxy] at hab
          exact Bool.false_ne_true hab

/-- `strLe` as a proposition, the sorting relation. -/
def strLeP (a b : String) : Prop :=
  strLe a b = true

instance : DecidableRel strLeP :=
  fun a b => Bool.decEq (strLe a b) true

instance : IsTotal String strLeP :=
  ⟨fun a b => charListLe_total a.data b.data⟩

instance : IsTrans String strLeP :=
  ⟨fun a b c hab hbc => charListLe_trans a.data b.data c.data hab hbc⟩

/-- Python `list.sort()` on a list of strings (stable sort in
codepoint-lexicographic order). -/
def sortStrings (l : List String) : List String :=
  List.insertionSort strLeP l

theorem sortStrings_sorted (l : List String) :
    (sortStrings l).Sorted strLeP :=
  List.sorted_insertionSort strLeP l

theorem sortStrings_perm (l : List String) :
    (sortStrings l).Perm l :=
  List.perm_insertionSort strLeP l

theorem sortStrings_length (l : List String) :
    (sortStrings l).length = l.length :=
  (sortStrings_perm l).length_eq

/-! ## Data model -/

/-- What the embedding records about one file on disk: its size in bytes,
whether the PDF library can open and process it, and its page sequence
(pages are abstract identifiers, preserved by merging and compression). -/
structure PdfFile where
  size : Nat
  readable : Bool
  pages : List Nat
deriving Repr, DecidableEq

/-- First association for a key in a listing (Python dict/listdir lookup). -/
def findEntry {α : Type} : List (String × α) → String → Option α
  | [], _ => none
  | (n, v) :: rest, k => if n == k then some v else findEntry rest k

/-- The PDF filter of merge_pdfs.py (folder merge, line 33, and folder
compression, line 235, and the GUI folder loaders): keeps entries whose
lowercased name ends with `.pdf`. -/
def pdfFilter (names : List String) : List String :=
  names.filter (fun n => pyEndsWith (pyLower n) ".pdf")

/-- The PDF filter of main.py, line 8: case-sensitive `endswith('.pdf')`. -/
def mainPdfFilter (names : List String) : List String :=
  names.filter (fun n => pyEndsWith n ".pdf")

/-- Whether `PyPDF2` can open file `n` of the listing (a name not present or
an unreadable file both raise when appended). -/
def readableIn (listing : List (String × PdfFile)) (n : String) : Bool :=
  match findEntry listing n with
  | some f => f.readable
  | none => false

/-- The pages that appending file `n` of the listing contributes. -/
def pagesIn (listing : List (String × PdfFile)) (n : String) : List Nat :=
  match findEntry listing n with
  | some f => f.pages
  | none => []

/-! ## Merge embeddings -/

/-- Observable outcome of `merge_pdfs_by_order` (merge_pdfs.py, lines 12-79):
the returned flag, the resolved ordered input set, which inputs were appended
or skipped with a warning, the pages and path of the written output, and the
count printed by the final `Successfully merged ... PDFs` message. -/
structure MergeByOrderResult where
  ok : Bool
  inputs : List String
  appended : List String
  warnings : List String
  outputPages : Option (List Nat)
  outputPath : Option String
  reportedCount : Option Nat
deriving Repr, DecidableEq

/-- The per-file append loop shared by `merge_pdfs_by_order` (lines 54-61) and
`merge_specific_pdfs` (lines 111-117): each file is appended when the library
can read it; a failure prints a warning and `continue`s.  Returns the appended
files, the accumulated page sequence, and the files skipped with a warning. -/
def appendLoop (listing : List (String × PdfFile)) :
    List String → List String × List Nat × List String
  | [] => ([], [], [])
  | n :: ns =>
    let rest := appendLoop listing ns
    match findEntry listing n with
    | some f =>
      if f.readable then (n :: rest.1, f.pages ++ rest.2.1, rest.2.2)
      else (rest.1, rest.2.1, n :: rest.2.2)
    | none => (rest.1, rest.2.1, n :: rest.2.2)

/-- Output path computed by `merge_pdfs_by_order`, lines 64-68: an absolute
output name is used unchanged, a relative one is joined to the input folder. -/
def folderModeOutputPath (folderPath output_filename : String) : String :=
  if isAbs output_filename then output_filename
  else pathJoin folderPath output_filename

/-- Folder-mode input resolution of `merge_pdfs_by_order` (lines 33-37):
filter the listing to PDF names, then remove the output file name when
`exclude_output` is set and it appears among them. -/
def resolveFolderInputs (names : List String) (output_filename : String)
    (exclude_output : Bool) : List String :=
  let pdf_files := pdfFilter names
  if exclude_output && pdf_files.contains output_filename then
    pdf_files.erase output_filename
  else pdf_files

/-- merge_pdfs.py `merge_pdfs_by_order` (lines 12-79).  The folder argument is
`none` when the folder does not exist, otherwise its directory listing. -/
def mergePdfsByOrder (folder : Option (List (String × PdfFile)))
    (folderPath output_filename : String) (exclude_output : Bool) :
    MergeByOrderResult :=
  match folder with
  | none => ⟨false, [], [], [], none, none, none⟩
  | some listing =>
    let pdf_files :=
      resolveFolderInputs (listing.map Prod.fst) output_filename exclude_output
    if pdf_files.isEmpty then ⟨false, [], [], [], none, none, none⟩
    else
      let sorted := sortStrings pdf_files
      let loop := appendLoop listing sorted
      ⟨true, sorted, loop.1, loop.2.2, some loop.2.1,
        some (folderModeOutputPath folderPath output_filename),
        some sorted.length⟩

/-- Outcome of main.py `merge_pdfs`: either the written output pages and the
reported count, or the file whose read raised the exception that aborted the
whole merge (nothing written in that case: the output write at lines 20-21
comes after the read loop, and the function has no exception handler). -/
inductive MainMergeResult where
  | ok (outputPages : List Nat) (reportedCount : Nat)
  | error (file : String)
deriving Repr, DecidableEq

/-- The read loop of main.py `merge_pdfs` (lines 11-18): every file is opened
and its pages added; there is no per-file handler, so the first failure
propagates. -/
def mainReadAll (listing : List (String × PdfFile)) :
    List String → Except String (List Nat)
  | [] => .ok []
  | n :: ns =>
    match findEntry listing n with
    | some f =>
      if f.readable then
        match mainReadAll listing ns with
        | .ok rest => .ok (f.pages ++ rest)
        | .error e => .error e
      else .error n
    | none => .error n

/-- main.py `merge_pdfs` (lines 4-23): case-sensitive `.pdf` filter, sort,
read all pages with no per-file exception handling, then write the output and
report `len(pdf_files)`. -/
def mainMergePdfs (listing : List (String × PdfFile)) : MainMergeResult :=
  let pdf_files := sortStrings (mainPdfFilter (listing.map Prod.fst))
  match mainReadAll listing pdf_files with
  | .ok pages => .ok pages pdf_files.length
  | .error e => .error e

/-- Outcome of `merge_specific_pdfs` (merge_pdfs.py, lines 81-130): either the
missing-files failure (reported before any merging or write; the constructor
carries no output), or the merged result.  `outputPath` is the string passed
to `open`, i.e. `Path(output_filename)` (line 120), which the OS resolves
against the working directory. -/
inductive SpecificMergeResult where
  | missingFiles (files : List String)
  | merged (appended : List String) (warnings : List String)
      (outputPages : List Nat) (outputPath : String)
deriving Repr, DecidableEq

/-- merge_pdfs.py `merge_specific_pdfs` (lines 81-130): validate that every
path exists (collecting all missing ones, lines 94-97), fail if any is
missing, otherwise merge in the order given, skipping unreadable files with a
warning. -/
def mergeSpecificPdfs (fs : List (String × PdfFile)) (pdf_files : List String)
    (output_filename : String) : SpecificMergeResult :=
  let missing := pdf_files.filter (fun p => (findEntry fs p).isNone)
  if missing.isEmpty then
    let loop := appendLoop fs pdf_files
    .merged loop.1 loop.2.2 loop.2.1 output_filename
  else
    .missingFiles missing

/-! ## Compression embeddings -/

/-- The document `compress_pdf` writes: the input's (content-stream
compressed) pages, plus the copied document metadata when the level requested
it (lines 167-176). -/
structure WrittenPdf where
  pages : List Nat
  withMetadata : Bool
deriving Repr, DecidableEq

/-- The `info` dictionary returned by a successful `compress_pdf`
(lines 193-198). -/
structure CompressInfo where
  original_size : Nat
  compressed_size : Nat
  reduction_percent : ℚ
  output_path : String
deriving Repr, DecidableEq

/-- The file-system state the compression functions run against: existing
files by path, directory listings by path, and an oracle giving the size of
the file the PDF library produces when a given document is written at a given
path. -/
structure World where
  files : List (String × PdfFile)
  folders : List (String × List String)
  outSize : String → WrittenPdf → Nat

/-- merge_pdfs.py `compress_pdf` (lines 132-204).  The Python function returns
`(False, {})` on any failure and `(True, info)` on success; this embedding
returns `none` for the former and `some info` for the latter.  The reduction
percentage is computed as `((original_size - compressed_size) / original_size)
* 100` (line 187) with no guard on `original_size`; in Python a zero original
size raises `ZeroDivisionError`, which — like a read failure — is caught by
the function's `except` handler (lines 202-204) and turned into `(False, {})`.
Note the `if compression_level == 'high'` branch at lines 180-183 performs the
identical write in both arms, exactly as in the source. -/
def compress_pdf (w : World) (input_file : String) (output_file : Option String)
    (compression_level : String) : Option CompressInfo :=
  match findEntry w.files input_file with
  | none => none
  | some f =>
    let original_size := f.size
    let output_path :=
      match output_file with
      | none => pathJoin (parentDir input_file)
          (pyStem (baseName input_file) ++ "_compressed.pdf")
      | some o => o
    if f.readable then
      let written : WrittenPdf :=
        ⟨f.pages, compression_level == "medium" || compression_level == "high"⟩
      let compressed_size :=
        if compression_level == "high" then w.outSize output_path written
        else w.outSize output_path written
      if original_size == 0 then
        none
      else
        some ⟨original_size, compressed_size,
          ((original_size : ℚ) - (compressed_size : ℚ)) / (original_size : ℚ) * 100,
          output_path⟩
    else
      none

/-- One entry of the `results` list built by `compress_folder`
(lines 255-267): the bare filename, the success flag, and (for successes) the
merged-in `info` dictionary. -/
structure FolderCompressEntry where
  filename : String
  success : Bool
  info : Option CompressInfo
deriving Repr, DecidableEq

/-- Observable outcome of `compress_folder` (lines 206-286): returned flag,
per-file results, the running totals accumulated over successful files
(lines 261-262), and whether the `output_path.mkdir(parents=True,
exist_ok=True)` call at line 232 was reached. -/
structure CompressFolderOutcome where
  ok : Bool
  results : List FolderCompressEntry
  total_original : Nat
  total_compressed : Nat
  mkdirCalled : Bool
deriving Repr, DecidableEq

/-- Output folder of `compress_folder`, lines 226-229: default is the
`compressed` subfolder of the input folder. -/
def folderOutputPath (pdf_folder : String) (output_folder : Option String) :
    String :=
  match output_folder with
  | none => pathJoin pdf_folder "compressed"
  | some o => o

/-- The per-file loop of `compress_folder` (lines 249-269): compress each file
into the output folder under the same name, record a success entry with the
info and add to the totals, or record a failure entry. -/
def compressLoop (w : World) (folderPath outPath level : String) :
    List String → List FolderCompressEntry × Nat × Nat
  | [] => ([], 0, 0)
  | n :: ns =>
    let r := compress_pdf w (pathJoin folderPath n) (some (pathJoin outPath n)) level
    let rest := compressLoop w folderPath outPath level ns
    match r with
    | some i =>
      (⟨n, true, some i⟩ :: rest.1,
        i.original_size + rest.2.1, i.compressed_size + rest.2.2)
    | none => (⟨n, false, none⟩ :: rest.1, rest.2.1, rest.2.2)

/-- merge_pdfs.py `compress_folder` (lines 206-286).  Note the order of
operations in the source: the existence check (line 221), then the output
folder creation (line 232), and only then the PDF scan (line 235) and the
empty check (line 237). -/
def compress_folder (w : World) (pdf_folder : String)
    (output_folder : Option String) (compression_level : String) :
    CompressFolderOutcome :=
  match findEntry w.folders pdf_folder with
  | none => ⟨false, [], 0, 0, false⟩
  | some names =>
    let output_path := folderOutputPath pdf_folder output_folder
    let pdf_files := pdfFilter names
    if pdf_files.isEmpty then ⟨false, [], 0, 0, true⟩
    else
      let sorted := sortStrings pdf_files
      let loop := compressLoop w pdf_folder output_path compression_level sorted
      ⟨true, loop.1, loop.2.1, loop.2.2, true⟩

/-- `original_size` of a result entry, with the worker's `.get(…, 0)`
default. -/
def infoOrig (r : FolderCompressEntry) : Nat :=
  match r.info with
  | some i => i.original_size
  | none => 0

/-- `compressed_size` of a result entry, with the worker's `.get(…, 0)`
default. -/
def infoComp (r : FolderCompressEntry) : Nat :=
  match r.info with
  | some i => i.compressed_size
  | none => 0

/-- The summary the GUI folder-compression worker builds
(`CompressionWorker.run`, lines 394-408). -/
structure WorkerFolderInfo where
  original_size : Nat
  compressed_size : Nat
  reduction_percent : ℚ
  files_count : Nat
deriving Repr, DecidableEq

/-- `CompressionWorker.run`, folder branch (lines 394-408): totals are summed
over the entries whose success flag is set, the overall reduction guards the
zero denominator, and `files_count` is the length of the whole results
list. -/
def workerFolderInfo (results : List FolderCompressEntry) : WorkerFolderInfo :=
  let total_original := ((results.filter (fun r => r.success)).map infoOrig).sum
  let total_compressed := ((results.filter (fun r => r.success)).map infoComp).sum
  let total_reduction : ℚ :=
    if 0 < total_original then
      ((total_original : ℚ) - (total_compressed : ℚ)) / (total_original : ℚ) * 100
    else 0
  ⟨total_original, total_compressed, total_reduction, results.length⟩

/-! ## Structural lemmas about the loops -/

theorem appendLoop_eq (listing : List (String × PdfFile)) (ns : List String) :
    appendLoop listing ns =
      (ns.filter (readableIn listing),
       ((ns.filter (readableIn listing)).map (pagesIn listing)).flatten,
       ns.filter (fun n => ! readableIn listing n)) := by
  induction ns with
  | nil => rfl
  | cons n ns ih =>
    simp only [appendLoop, ih]
    cases h : findEntry listing n with
    | none =>
      simp [readableIn, pagesIn, h, List.filter_cons]
    | some f =>
      cases hr : f.readable with
      | true => simp [readableIn, pagesIn, h, hr, List.filter_cons]
      | false => simp [readableIn, pagesIn, h, hr, List.filter_cons]

/-- The result entry `compress_folder` records for one input file. -/
def compressEntryFor (w : World) (folderPath outPath level n : String) :
    FolderCompressEntry :=
  match compress_pdf w (pathJoin folderPath n) (some (pathJoin outPath n)) level with
  | some i => ⟨n, true, some i⟩
  | none => ⟨n, false, none⟩

theorem compressLoop_results (w : World) (folderPath outPath level : String)
    (ns : List String) :
    (compressLoop w folderPath outPath level ns).1 =
      ns.map (compressEntryFor w folderPath outPath level) := by
  induction ns with
  | nil => rfl
  | cons n ns ih =>
    simp only [compressLoop, compressEntryFor, List.map_cons]
    cases h : compress_pdf w (pathJoin folderPath n) (some (pathJoin outPath n)) level with
    | none => simpa using ih
    | some i => simpa using ih

theorem compressLoop_total_original (w : World) (folderPath outPath level : String)
    (ns : List String) :
    (compressLoop w folderPath outPath level ns).2.1 =
      (((compressLoop w folderPath outPath level ns).1.filter
          (fun r => r.success)).map infoOrig).sum := by
  induction ns with
  | nil => rfl
  | cons n ns ih =>
    simp only [compressLoop]
    cases h : compress_pdf w (pathJoin folderPath n) (some (pathJoin outPath n)) level with
    | none => simpa [List.filter_cons] using ih
    | some i => simpa [List.filter_cons, infoOrig] using ih

theorem compressLoop_total_compressed (w : World) (folderPath outPath level : String)
    (ns : List String) :
    (compressLoop w folderPath outPath level ns).2.2 =
      (((compressLoop w folderPath outPath level ns).1.filter
          (fun r => r.success)).map infoComp).sum := by
  induction ns with
  | nil => rfl
  | cons n ns ih =>
    simp only [compressLoop]
    cases h : compress_pdf w (pathJoin folderPath n) (some (pathJoin outPath n)) level with
    | none => simpa [List.filter_cons] using ih
    | some i => simpa [List.filter_cons, infoComp] using ih

theorem compressEntryFor_success_iff (w : World) (folderPath outPath level n : String) :
    (compressEntryFor w folderPath outPath level n).success = true ↔
      (compressEntryFor w folderPath outPath level n).info.isSome = true := by
  unfold compressEntryFor
  cases compress_pdf w (pathJoin folderPath n) (some (pathJoin outPath n)) level with
  | none => simp
  | some i => simp

theorem resolveFolderInputs_no_collision (names : List String)
    (output_filename : String) (exclude_output : Bool)
    (hcol : (pdfFilter names).contains output_filename = false) :
    resolveFolderInputs names output_filename exclude_output = pdfFilter names := by
  simp [resolveFolderInputs, hcol]
  exact fun _ => by simpa using hcol

theorem mainReadAll_ok_all_readable (listing : List (String × PdfFile))
    (ns : List String) (ps : List Nat)
    (h : mainReadAll listing ns = .ok ps) :
    ∀ n ∈ ns, readableIn listing n = true := by
  induction ns generalizing ps with
  | nil => intro n hn; cases hn
  | cons m ms ih =>
    intro n hn
    cases hf : findEntry listing m with
    | none => simp [mainReadAll, hf] at h
    | some f =>
      cases hr : f.readable with
      | false => simp [mainReadAll, hf, hr] at h
      | true =>
        cases hrec : mainReadAll listing ms with
        | error e => simp [mainReadAll, hf, hr, hrec] at h
        | ok rest =>
          rcases List.mem_cons.mp hn with rfl | hn'
          · simp [readableIn, hf, hr]
          · exact ih rest hrec n hn'

/-! ## Claims -/

/-- C4: for every non-empty directory whose PDF entries do not collide with
the output filename, folder-mode input resolution returns exactly as many
entries as there are PDF files, a permutation of them, ordered by
byte/codepoint lexicographic comparison of their names (`strLeP`). -/
theorem c4_folder_resolution_lexicographic
    (listing : List (String × PdfFile)) (folderPath out : String) (excl : Bool)
    (hne : (pdfFilter (listing.map Prod.fst)).isEmpty = false)
    (hcol : (pdfFilter (listing.map Prod.fst)).contains out = false) :
    (mergePdfsByOrder (some listing) folderPath out excl).ok = true ∧
    (mergePdfsByOrder (some listing) folderPath out excl).inputs.length
      = (pdfFilter (listing.map Prod.fst)).length ∧
    (mergePdfsByOrder (some listing) folderPath out excl).inputs.Perm
      (pdfFilter (listing.map Prod.fst)) ∧
    (mergePdfsByOrder (some listing) folderPath out excl).inputs.Sorted strLeP := by
  have hres := resolveFolderInputs_no_collision (listing.map Prod.fst) out excl hcol
  simp only [mergePdfsByOrder, hres, hne, Bool.false_eq_true, if_false]
  exact ⟨trivial, sortStrings_length _, sortStrings_perm _, sortStrings_sorted _⟩

/-- Directory listing with the spec's example names `2.pdf`, `10.pdf`,
`1.pdf`, used to exhibit the codepoint (non-natural) sort order. -/
def c4Listing : List (String × PdfFile) :=
  [("2.pdf", ⟨10, true, [21]⟩), ("10.pdf", ⟨10, true, [101]⟩),
   ("1.pdf", ⟨10, true, [11]⟩)]

/-- C4 witness: on `{2.pdf, 10.pdf, 1.pdf}` resolution returns the three
names sorted codepoint-lexicographically, i.e. `1.pdf, 10.pdf, 2.pdf` — not
the natural order `1, 2, 10`. -/
theorem c4_witness :
    (mergePdfsByOrder (some c4Listing) "files" "merged_output.pdf" true).inputs.Sorted
      strLeP ∧
    (mergePdfsByOrder (some c4Listing) "files" "merged_output.pdf" true).inputs
      = ["1.pdf", "10.pdf", "2.pdf"] :=
  ⟨(c4_folder_resolution_lexicographic c4Listing "files" "merged_output.pdf" true
      (by decide) (by decide)).2.2.2,
   by decide⟩

/-- C10: `compress_pdf` at level `high` takes exactly the same steps as at
level `medium` — both copy the metadata (line 174 tests membership in
`['medium', 'high']`) and the `if compression_level == 'high'` at lines
180-183 performs the identical write in both arms — so the two levels produce
identical results on every input. -/
theorem c10_high_level_equals_medium (w : World) (input_file : String)
    (output_file : Option String) :
    compress_pdf w input_file output_file "high"
      = compress_pdf w input_file output_file "medium" := by
  unfold compress_pdf
  cases findEntry w.files input_file with
  | none => rfl
  | some f =>
    cases hr : f.readable with
    | false => simp [hr]
    | true =>
      have hm : (("high" : String) == "medium" || ("high" : String) == "high")
          = (("medium" : String) == "medium" || ("medium" : String) == "high") := by
        decide
      simp only [hr, if_true, ite_self, hm]

/-- C6: when at least one explicit path is missing, `merge_specific_pdfs`
fails before any merging or output write (the `missingFiles` outcome carries
no output), and the failure lists exactly the missing paths — all of them, in
list order, because the collection loop (lines 94-97) runs over the whole
list before the check at line 99. -/
theorem c6_missing_files_reported_eagerly
    (fs : List (String × PdfFile)) (paths : List String) (out : String)
    (hmiss : (paths.filter (fun p => (findEntry fs p).isNone)).isEmpty = false) :
    mergeSpecificPdfs fs paths out
      = .missingFiles (paths.filter (fun p => (findEntry fs p).isNone)) ∧
    ∀ p, p ∈ paths.filter (fun p => (findEntry fs p).isNone) ↔
      (p ∈ paths ∧ findEntry fs p = none) := by
  constructor
  · simp only [mergeSpecificPdfs, hmiss, Bool.false_eq_true, if_false]
  · intro p
    simp [List.mem_filter, Option.isNone_iff_eq_none]

/-- Files known to the explicit-mode witness: only `a.pdf` exists. -/
def c6Files : List (String × PdfFile) := [("a.pdf", ⟨10, true, [1]⟩)]

/-- C6 witness: with two missing paths among three, the failure lists both
missing paths (not just the first). -/
theorem c6_witness :
    mergeSpecificPdfs c6Files ["a.pdf", "missing1.pdf", "missing2.pdf"] "out.pdf"
      = .missingFiles ["missing1.pdf", "missing2.pdf"] :=
  ((c6_missing_files_reported_eagerly c6Files
      ["a.pdf", "missing1.pdf", "missing2.pdf"] "out.pdf" (by decide)).1).trans
    (by decide)

/-- C8: a relative output path is resolved against the input folder in folder
mode (`folderModeOutputPath`, lines 64-68) but against the working directory
in explicit mode (line 120 passes the name to `open` unchanged, so the OS
resolves it against the CWD, `osResolve`); an absolute output path is used
unchanged by both modes.  The last two conjuncts tie the two path expressions
to the merge functions themselves. -/
theorem c8_output_path_mode_asymmetry (folderPath out cwd : String) :
    (isAbs out = false →
      folderModeOutputPath folderPath out = pathJoin folderPath out ∧
      osResolve cwd out = pathJoin cwd out) ∧
    (isAbs out = true →
      folderModeOutputPath folderPath out = out ∧
      osResolve cwd out = out) ∧
    (∀ (listing : List (String × PdfFile)) (excl : Bool),
      (mergePdfsByOrder (some listing) folderPath out excl).ok = true →
      (mergePdfsByOrder (some listing) folderPath out excl).outputPath
        = some (folderModeOutputPath folderPath out)) ∧
    (∀ (fs : List (String × PdfFile)) (paths : List String)
        (app warn : List String) (pages : List Nat) (opath : String),
      mergeSpecificPdfs fs paths out = .merged app warn pages opath →
      opath = out) := by
  refine ⟨?_, ?_, ?_, ?_⟩
  · intro h
    simp [folderModeOutputPath, osResolve, h]
  · intro h
    simp [folderModeOutputPath, osResolve, h]
  · intro listing excl
    by_cases hempty :
        (resolveFolderInputs (listing.map Prod.fst) out excl).isEmpty = true
    · intro hok
      simp [mergePdfsByOrder, hempty] at hok
    · intro _
      simp [mergePdfsByOrder, hempty]
  · intro fs paths app warn pages opath hm
    by_cases hmiss :
        (paths.filter (fun p => (findEntry fs p).isNone)).isEmpty = true
    · simp only [mergeSpecificPdfs, hmiss, if_true] at hm
      cases hm
      rfl
    · simp [mergeSpecificPdfs, hmiss] at hm

/-- C8 witness: the two modes at the concrete relative name
`merged_output.pdf` (folder `files`, CWD `/home/user`) and at the concrete
absolute name `/tmp/out.pdf`. -/
theorem c8_witness :
    (folderModeOutputPath "files" "merged_output.pdf"
        = pathJoin "files" "merged_output.pdf" ∧
      osResolve "/home/user" "merged_output.pdf"
        = pathJoin "/home/user" "merged_output.pdf") ∧
    (folderModeOutputPath "files" "/tmp/out.pdf" = "/tmp/out.pdf" ∧
      osResolve "/home/user" "/tmp/out.pdf" = "/tmp/out.pdf") :=
  ⟨(c8_output_path_mode_asymmetry "files" "merged_output.pdf" "/home/user").1
      (by decide),
   (c8_output_path_mode_asymmetry "files" "/tmp/out.pdf" "/home/user").2.1
      (by decide)⟩

/-- C3: over a folder whose scan finds PDFs, `compress_folder` returns one
result entry per resolved input (in sorted order, each recording whether that
file's compression succeeded), and both its own running totals and the
worker's summary aggregate original/compressed sizes over only the
`success:true` entries, with `files_count` the length of the whole list. -/
theorem c3_compress_folder_per_file_results
    (w : World) (pdf_folder : String) (output_folder : Option String)
    (level : String) (names : List String)
    (hf : findEntry w.folders pdf_folder = some names)
    (hne : (pdfFilter names).isEmpty = false) :
    (compress_folder w pdf_folder output_folder level).ok = true ∧
    (compress_folder w pdf_folder output_folder level).results.length
      = (pdfFilter names).length ∧
    (compress_folder w pdf_folder output_folder level).results
      = (sortStrings (pdfFilter names)).map
          (compressEntryFor w pdf_folder
            (folderOutputPath pdf_folder output_folder) level) ∧
    (∀ r ∈ (compress_folder w pdf_folder output_folder level).results,
      r.success = true ↔ r.info.isSome = true) ∧
    (compress_folder w pdf_folder output_folder level).total_original
      = (((compress_folder w pdf_folder output_folder level).results.filter
          (fun r => r.success)).map infoOrig).sum ∧
    (compress_folder w pdf_folder output_folder level).total_compressed
      = (((compress_folder w pdf_folder output_folder level).results.filter
          (fun r => r.success)).map infoComp).sum ∧
    (workerFolderInfo (compress_folder w pdf_folder output_folder level).results).files_count
      = (compress_folder w pdf_folder output_folder level).results.length ∧
    (workerFolderInfo (compress_folder w pdf_folder output_folder level).results).original_size
      = (compress_folder w pdf_folder output_folder level).total_original ∧
    (workerFolderInfo (compress_folder w pdf_folder output_folder level).results).compressed_size
      = (compress_folder w pdf_folder output_folder level).total_compressed := by
  have hcf : compress_folder w pdf_folder output_folder level
      = ⟨true,
          (compressLoop w pdf_folder (folderOutputPath pdf_folder output_folder)
            level (sortStrings (pdfFilter names))).1,
          (compressLoop w pdf_folder (folderOutputPath pdf_folder output_folder)
            level (sortStrings (pdfFilter names))).2.1,
          (compressLoop w pdf_folder (folderOutputPath pdf_folder output_folder)
            level (sortStrings (pdfFilter names))).2.2,
          true⟩ := by
    simp only [compress_folder, hf, hne, Bool.false_eq_true, if_false]
  rw [hcf]
  refine ⟨rfl, ?_, ?_, ?_, ?_, ?_, rfl, ?_, ?_⟩
  · rw [compressLoop_results, List.length_map, sortStrings_length]
  · exact compressLoop_results w pdf_folder _ level _
  · intro r hr
    rw [compressLoop_results] at hr
    obtain ⟨n, _, rfl⟩ := List.mem_map.mp hr
    exact compressEntryFor_success_iff w pdf_folder _ level n
  · exact compressLoop_total_original w pdf_folder _ level _
  · exact compressLoop_total_compressed w pdf_folder _ level _
  · exact (compressLoop_total_original w pdf_folder _ level _).symm
  · exact (compressLoop_total_compressed w pdf_folder _ level _).symm

/-- World for the C3 witness: folder `d` holds three PDFs (plus a non-PDF
entry); `d/b.pdf` is unreadable; every written file has size 40. -/
def c3World : World :=
  ⟨[("d/a.pdf", ⟨100, true, [1]⟩), ("d/b.pdf", ⟨50, false, [2]⟩),
    ("d/c.pdf", ⟨200, true, [3]⟩)],
   [("d", ["a.pdf", "b.pdf", "c.pdf", "notes.txt"])],
   fun _ _ => 40⟩

/-- C3 witness: 3 resolved inputs of which one fails: `files_count = 3`, the
success flags are `[true, false, true]`, and the totals 300 and 80 come from
the two successes only (100+200 and 40+40). -/
theorem c3_witness :
    (compress_folder c3World "d" none "medium").ok = true ∧
    (workerFolderInfo (compress_folder c3World "d" none "medium").results).files_count
      = 3 ∧
    ((compress_folder c3World "d" none "medium").results.map (fun r => r.success))
      = [true, false, true] ∧
    (compress_folder c3World "d" none "medium").total_original = 300 ∧
    (compress_folder c3World "d" none "medium").total_compressed = 80 :=
  ⟨(c3_compress_folder_per_file_results c3World "d" none "medium"
      ["a.pdf", "b.pdf", "c.pdf", "notes.txt"] (by rfl) (by decide)).1,
   by decide, by decide, by decide, by decide⟩

/-- Folder listing with three PDFs of which `b.pdf` is unreadable, for C1. -/
def c1Listing : List (String × PdfFile) :=
  [("a.pdf", ⟨10, true, [1, 2]⟩), ("b.pdf", ⟨10, false, [3]⟩),
   ("c.pdf", ⟨10, true, [4]⟩)]

/-- C1 counterexample: merging three resolved inputs of which one is
unreadable appends only two files, yet the success message (line 73) reports
`len(pdf_files) = 3`, not the successfully-included count 2 the claim
states. -/
theorem c1_counterexample :
    (mergePdfsByOrder (some c1Listing) "files" "merged_output.pdf" true).appended.length
      = 2 ∧
    (mergePdfsByOrder (some c1Listing) "files" "merged_output.pdf" true).reportedCount
      = some 3 ∧
    (mergePdfsByOrder (some c1Listing) "files" "merged_output.pdf" true).reportedCount
      ≠ some 2 :=
  ⟨by decide, by decide, by decide⟩

/-- C1 amended: a successful folder merge reports `len(pdf_files)`, the
length of the resolved input set, regardless of how many inputs were skipped;
the successfully-included files are the readable subset of it, which can be
strictly shorter.  (In the three-inputs-one-unreadable case the code reports
3, not 2.) -/
theorem c1_reported_count_is_resolved_length
    (listing : List (String × PdfFile)) (folderPath out : String) (excl : Bool)
    (hne : (resolveFolderInputs (listing.map Prod.fst) out excl).isEmpty = false) :
    (mergePdfsByOrder (some listing) folderPath out excl).ok = true ∧
    (mergePdfsByOrder (some listing) folderPath out excl).reportedCount
      = some (mergePdfsByOrder (some listing) folderPath out excl).inputs.length ∧
    (mergePdfsByOrder (some listing) folderPath out excl).appended
      = (mergePdfsByOrder (some listing) folderPath out excl).inputs.filter
          (readableIn listing) := by
  simp only [mergePdfsByOrder, hne, Bool.false_eq_true, if_false, appendLoop_eq]
  refine ⟨?_, ?_, ?_⟩ <;> trivial

/-- C1 witness: the amended statement at the concrete three-file listing:
the merge succeeds and reports the resolved length (3). -/
theorem c1_witness :
    (mergePdfsByOrder (some c1Listing) "files" "merged_output.pdf" true).ok = true ∧
    (mergePdfsByOrder (some c1Listing) "files" "merged_output.pdf" true).reportedCount
      = some (mergePdfsByOrder (some c1Listing) "files" "merged_output.pdf" true).inputs.length :=
  ⟨(c1_reported_count_is_resolved_length c1Listing "files" "merged_output.pdf" true
      (by decide)).1,
   (c1_reported_count_is_resolved_length c1Listing "files" "merged_output.pdf" true
      (by decide)).2.1⟩

/-- World with a single existing, zero-byte input file, for C2. -/
def c2World : World :=
  ⟨[("empty.pdf", ⟨0, true, []⟩)], [], fun _ _ => 0⟩

/-- C2 counterexample: on a 0-byte input the reduction formula at line 187
divides by zero; the `except` handler turns that into `(False, {})` (embedded
as `none`), so no `CompressionStat` — in particular none with reduction 0 —
is returned. -/
theorem c2_counterexample :
    compress_pdf c2World "empty.pdf" (some "out.pdf") "medium" = none ∧
    ∀ i : CompressInfo,
      compress_pdf c2World "empty.pdf" (some "out.pdf") "medium" ≠ some i := by
  refine ⟨by decide, ?_⟩
  intro i h
  rw [show compress_pdf c2World "empty.pdf" (some "out.pdf") "medium" = none
    from by decide] at h
  cases h

/-- C2 amended: `compress_pdf` on an existing input of original size 0 always
returns `(False, {})`: if the input is unreadable the read raises, otherwise
the unguarded reduction computation raises `ZeroDivisionError`; either way
the function's `except` handler catches it (so no exception escapes to the
caller) and no stat with reduction 0 is produced. -/
theorem c2_zero_size_yields_failure
    (w : World) (input_file : String) (output_file : Option String)
    (level : String) (f : PdfFile)
    (hfind : findEntry w.files input_file = some f) (hsz : f.size = 0) :
    compress_pdf w input_file output_file level = none := by
  unfold compress_pdf
  rw [hfind]
  cases hr : f.readable with
  | false => simp [hr]
  | true => simp [hr, hsz]

/-- C2 witness: the amended statement at the concrete zero-byte file (level
`low`). -/
theorem c2_witness :
    compress_pdf c2World "empty.pdf" (some "out.pdf") "low" = none :=
  c2_zero_size_yields_failure c2World "empty.pdf" (some "out.pdf") "low"
    ⟨0, true, []⟩ (by rfl) (by rfl)

/-- Folder listing containing only an upper-case `A.PDF`, for C5. -/
def c5Listing : List (String × PdfFile) := [("A.PDF", ⟨10, true, [7]⟩)]

/-- C5 counterexample: `A.PDF` falsifies the claim that every folder scan is
case-insensitive: the merge_pdfs.py filter selects it, but the main.py filter
(case-sensitive `endswith('.pdf')`, line 8) selects nothing, and main.py's
merge consequently merges zero files and writes an empty output. -/
theorem c5_counterexample :
    pdfFilter ["A.PDF"] = ["A.PDF"] ∧
    mainPdfFilter ["A.PDF"] = [] ∧
    mainMergePdfs c5Listing = .ok [] 0 :=
  ⟨by decide, by decide, by decide⟩

/-- C5 amended: the merge_pdfs.py scans (folder merge, folder compression)
select an entry iff its lowercased name ends with `.pdf`, but the main.py
scan selects an entry iff its name ends with `.pdf` case-sensitively, so
`A.PDF` is selected by the former and not by the latter. -/
theorem c5_scan_filter_characterization (names : List String) (n : String) :
    (n ∈ pdfFilter names ↔ n ∈ names ∧ pyEndsWith (pyLower n) ".pdf" = true) ∧
    (n ∈ mainPdfFilter names ↔ n ∈ names ∧ pyEndsWith n ".pdf" = true) := by
  constructor
  · simp [pdfFilter, List.mem_filter]
  · simp [mainPdfFilter, List.mem_filter]

/-- Folder listing with a readable `a.pdf` and an unreadable `b.pdf`, for
C7. -/
def c7Listing : List (String × PdfFile) :=
  [("a.pdf", ⟨10, true, [1]⟩), ("b.pdf", ⟨10, false, [2]⟩)]

/-- C7 counterexample: in main.py's merge an unreadable input aborts the
whole merge — the exception propagates out of the function before the output
write — contradicting the claim that an individual input failure never aborts
the merge operation. -/
theorem c7_counterexample :
    mainMergePdfs c7Listing = .error "b.pdf" := by
  decide

/-- C7 amended: in merge_pdfs.py, both `merge_pdfs_by_order` and
`merge_specific_pdfs` warn about an individual read failure, skip only that
file, continue, and write the pages of every readable input; but in main.py's
`merge_pdfs` (which has no per-file handler) an individual read failure
aborts the whole merge. -/
theorem c7_partial_failure_tolerance :
    (∀ (listing : List (String × PdfFile)) (folderPath out : String) (excl : Bool),
      (resolveFolderInputs (listing.map Prod.fst) out excl).isEmpty = false →
      (mergePdfsByOrder (some listing) folderPath out excl).ok = true ∧
      (mergePdfsByOrder (some listing) folderPath out excl).appended
        = (mergePdfsByOrder (some listing) folderPath out excl).inputs.filter
            (readableIn listing) ∧
      (mergePdfsByOrder (some listing) folderPath out excl).warnings
        = (mergePdfsByOrder (some listing) folderPath out excl).inputs.filter
            (fun n => ! readableIn listing n) ∧
      (mergePdfsByOrder (some listing) folderPath out excl).outputPages
        = some ((((mergePdfsByOrder (some listing) folderPath out excl).inputs.filter
            (readableIn listing)).map (pagesIn listing)).flatten)) ∧
    (∀ (fs : List (String × PdfFile)) (paths : List String) (out : String),
      (paths.filter (fun p => (findEntry fs p).isNone)).isEmpty = true →
      mergeSpecificPdfs fs paths out
        = .merged (paths.filter (readableIn fs))
            (paths.filter (fun n => ! readableIn fs n))
            (((paths.filter (readableIn fs)).map (pagesIn fs)).flatten) out) ∧
    (∀ (listing : List (String × PdfFile)) (n : String),
      n ∈ mainPdfFilter (listing.map Prod.fst) →
      readableIn listing n = false →
      ∃ e, mainMergePdfs listing = .error e) := by
  refine ⟨?_, ?_, ?_⟩
  · intro listing folderPath out excl hne
    simp only [mergePdfsByOrder, hne, Bool.false_eq_true, if_false, appendLoop_eq]
    refine ⟨?_, ?_, ?_, ?_⟩ <;> trivial
  · intro fs paths out hall
    simp only [mergeSpecificPdfs, hall, if_true, appendLoop_eq]
  · intro listing n hmem hunread
    unfold mainMergePdfs
    cases hread : mainReadAll listing
        (sortStrings (mainPdfFilter (listing.map Prod.fst))) with
    | ok ps =>
      exfalso
      have hsorted : n ∈ sortStrings (mainPdfFilter (listing.map Prod.fst)) :=
        ((sortStrings_perm (mainPdfFilter (listing.map Prod.fst))).mem_iff).mpr hmem
      have := mainReadAll_ok_all_readable listing _ ps hread n hsorted
      rw [hunread] at this
      cases this
    | error e =>
      exact ⟨e, by simp [hread]⟩

/-- C7 witness: the amended statement at the concrete two-file listing with
`b.pdf` unreadable: the merge_pdfs.py folder merge succeeds with pages `[1]`
and warns about `b.pdf`, the explicit merge does likewise, and main.py's
merge errors. -/
theorem c7_witness :
    (mergePdfsByOrder (some c7Listing) "files" "merged_output.pdf" true).ok = true ∧
    (mergePdfsByOrder (some c7Listing) "files" "merged_output.pdf" true).outputPages
      = some [1] ∧
    mergeSpecificPdfs c7Listing ["a.pdf", "b.pdf"] "out.pdf"
      = .merged ["a.pdf"] ["b.pdf"] [1] "out.pdf" ∧
    ∃ e, mainMergePdfs c7Listing = .error e := by
  obtain ⟨h1, h2, h3⟩ := c7_partial_failure_tolerance
  refine ⟨(h1 c7Listing "files" "merged_output.pdf" true (by decide)).1, ?_, ?_,
    h3 c7Listing "b.pdf" (by decide) (by decide)⟩
  · rw [(h1 c7Listing "files" "merged_output.pdf" true (by decide)).2.2.2]
    decide
  · rw [h2 c7Listing ["a.pdf", "b.pdf"] "out.pdf" (by decide)]
    decide

/-- World whose folder `d` exists but contains no PDF entries, for C9. -/
def c9World : World := ⟨[], [("d", ["notes.txt"])], fun _ _ => 0⟩

/-- C9 counterexample: `compress_folder` on a folder with no PDFs fails, but
the output folder creation (line 232) was already performed — it precedes the
PDF scan (line 235) — contradicting the claim that the no-PDFs failure
creates no file-system state. -/
theorem c9_counterexample :
    (compress_folder c9World "d" none "medium").ok = false ∧
    (compress_folder c9World "d" none "medium").results = [] ∧
    (compress_folder c9World "d" none "medium").mkdirCalled = true :=
  ⟨by decide, by decide, by decide⟩

/-- C9 amended: a missing input folder aborts `compress_folder` before any
file-system state is created (no mkdir), but when the folder exists and
contains no PDFs the operation fails only after creating the output folder,
because the mkdir at line 232 precedes the scan at line 235. -/
theorem c9_resolution_failure_behaviour
    (w : World) (pdf_folder : String) (output_folder : Option String)
    (level : String) :
    (findEntry w.folders pdf_folder = none →
      compress_folder w pdf_folder output_folder level
        = ⟨false, [], 0, 0, false⟩) ∧
    (∀ names, findEntry w.folders pdf_folder = some names →
      (pdfFilter names).isEmpty = true →
      compress_folder w pdf_folder output_folder level
        = ⟨false, [], 0, 0, true⟩) := by
  constructor
  · intro h
    simp [compress_folder, h]
  · intro names h hempty
    simp [compress_folder, h, hempty]

/-- C9 witness: both branches of the amended statement at concrete worlds: a
missing folder yields no mkdir, an existing PDF-less folder yields a
mkdir. -/
theorem c9_witness :
    compress_folder c9World "missing" none "medium" = ⟨false, [], 0, 0, false⟩ ∧
    compress_folder c9World "d" none "medium" = ⟨false, [], 0, 0, true⟩ :=
  ⟨(c9_resolution_failure_behaviour c9World "missing" none "medium").1 (by rfl),
   (c9_resolution_failure_behaviour c9World "d" none "medium").2
     ["notes.txt"] (by rfl) (by rfl)⟩

end PDFMerger
